import Mathlib

/-!
# Concourse pipeline provider: `pipeline.go`

A shallow embedding of `src/pipeline.go` (the Terraform data source and
resource for a Concourse pipeline) together with theorems about its read,
write and delete paths.

Modelling conventions.

* A Go `error` is `Option String`: `none` is `nil`, `some msg` is an error
  whose `Error()` text is `msg`.
* `fmt.Sprintf` / `fmt.Errorf` with `%s` verbs is string concatenation; a nil
  `error` under `%s` prints as `%!s(<nil>)` (`fmtError`).
* The Concourse client is an external collaborator.  It is a record of
  functions over an arbitrary backend state `σ`; every team operation takes
  the state and returns its Go result tuple and the next state.
* `World σ` pairs the backend state with the list of remote calls issued so
  far, so that "which calls were made, in which order" can be stated.
* `schema.ResourceData` is a record of the attributes of the schema plus the
  resource id; `d.Set` / `d.SetId` are record updates.
* `ParsePipelineConfig`, `JSONToJSON` and `JSONToYAML` live in another file of
  the provider; they are taken as parameters (`Codec`).
-/

namespace Concourse

/-! ## Data model -/

/-- Rendering of a Go `error` by the `%s` verb: the message of a non-nil
error, and `%!s(<nil>)` for a nil one. -/
def fmtError : Option String → String
  | some e => e
  | none => "%!s(<nil>)"

/-- The fields of `atc.Pipeline` that identify a pipeline and carry its two
flags. -/
structure Pipeline where
  Name : String
  TeamName : String
  Paused : Bool
  Public : Bool
  deriving DecidableEq, Repr

/-- One `atc.ConfigWarning`; the Go field `Type` is spelled `Type_` here. -/
structure ConfigWarning where
  Type_ : String
  Message : String
  deriving DecidableEq, Repr

/-- Result tuple of `team.Pipeline(name)`. -/
structure PipelineResult where
  pipeline : Pipeline
  found : Bool
  err : Option String
  deriving DecidableEq, Repr

/-- Result tuple of `team.PipelineConfig(name)`: the raw config (the second
component, the one `readPipeline` binds), the version, found and error. The
first component (the decoded `atc.Config`) is discarded by the caller and not
represented. -/
structure PipelineConfigResult where
  rawConfig : String
  version : String
  found : Bool
  err : Option String
  deriving DecidableEq, Repr

/-- Result tuple of `team.CreateOrUpdatePipelineConfig(...)`, with the second
flag named as `resourcePipelineUpdate` names it. -/
structure SetConfigResult where
  created : Bool
  not_created : Bool
  warnings : List ConfigWarning
  err : Option String
  deriving DecidableEq, Repr

/-- Result tuple `(bool, error)` of expose / hide / pause / unpause / delete. -/
structure FlagResult where
  found : Bool
  err : Option String
  deriving DecidableEq, Repr

/-- The team-scoped operations of `concourse.Client` used by `pipeline.go`.
The first `String` of each operation is the team name given to
`client.Team`, the second the pipeline name. -/
structure Client (σ : Type) where
  Pipeline : σ → String → String → PipelineResult × σ
  PipelineConfig : σ → String → String → PipelineConfigResult × σ
  CreateOrUpdatePipelineConfig : σ → String → String → String → String → Bool → SetConfigResult × σ
  ExposePipeline : σ → String → String → FlagResult × σ
  HidePipeline : σ → String → String → FlagResult × σ
  PausePipeline : σ → String → String → FlagResult × σ
  UnpausePipeline : σ → String → String → FlagResult × σ
  DeletePipeline : σ → String → String → FlagResult × σ

/-- A remote call, with its arguments (team name first). -/
inductive Call where
  | Pipeline (team name : String)
  | PipelineConfig (team name : String)
  | CreateOrUpdatePipelineConfig (team name version config : String) (checkCredentials : Bool)
  | ExposePipeline (team name : String)
  | HidePipeline (team name : String)
  | PausePipeline (team name : String)
  | UnpausePipeline (team name : String)
  | DeletePipeline (team name : String)
  deriving DecidableEq, Repr

/-- Backend state together with the remote calls issued so far, oldest first. -/
structure World (σ : Type) where
  state : σ
  calls : List Call

/-- The conversion helpers of the provider that `pipeline.go` calls; each
returns the converted document or an error message. -/
structure Codec where
  ParsePipelineConfig : String → String → Except String String
  JSONToJSON : String → Except String String
  JSONToYAML : String → Except String String

/-- The attributes of `schema.ResourceData` for the pipeline schemas, and the
resource id. -/
structure ResourceData where
  Id : String
  pipeline_name : String
  team_name : String
  is_exposed : Bool
  is_paused : Bool
  pipeline_config_format : String
  pipeline_config : String
  json : String
  yaml : String
  deriving DecidableEq, Repr

/-- The method `d.SetId(id)`. -/
def ResourceData.SetId (d : ResourceData) (id : String) : ResourceData :=
  { d with Id := id }

/-- The struct `pipelineHelper`. -/
structure pipelineHelper where
  TeamName : String
  PipelineName : String
  IsExposed : Bool
  IsPaused : Bool
  JSON : String
  YAML : String
  deriving DecidableEq, Repr

/-! ## Remote calls: run the client operation and record the call -/

namespace Team

variable {σ : Type}

def Pipeline (client : Client σ) (team name : String) (w : World σ) :
    PipelineResult × World σ :=
  let r := client.Pipeline w.state team name
  (r.1, { state := r.2, calls := w.calls ++ [Call.Pipeline team name] })

def PipelineConfig (client : Client σ) (team name : String) (w : World σ) :
    PipelineConfigResult × World σ :=
  let r := client.PipelineConfig w.state team name
  (r.1, { state := r.2, calls := w.calls ++ [Call.PipelineConfig team name] })

def CreateOrUpdatePipelineConfig (client : Client σ) (team name version config : String)
    (checkCredentials : Bool) (w : World σ) : SetConfigResult × World σ :=
  let r := client.CreateOrUpdatePipelineConfig w.state team name version config checkCredentials
  (r.1, { state := r.2,
          calls := w.calls ++
            [Call.CreateOrUpdatePipelineConfig team name version config checkCredentials] })

def ExposePipeline (client : Client σ) (team name : String) (w : World σ) :
    FlagResult × World σ :=
  let r := client.ExposePipeline w.state team name
  (r.1, { state := r.2, calls := w.calls ++ [Call.ExposePipeline team name] })

def HidePipeline (client : Client σ) (team name : String) (w : World σ) :
    FlagResult × World σ :=
  let r := client.HidePipeline w.state team name
  (r.1, { state := r.2, calls := w.calls ++ [Call.HidePipeline team name] })

def PausePipeline (client : Client σ) (team name : String) (w : World σ) :
    FlagResult × World σ :=
  let r := client.PausePipeline w.state team name
  (r.1, { state := r.2, calls := w.calls ++ [Call.PausePipeline team name] })

def UnpausePipeline (client : Client σ) (team name : String) (w : World σ) :
    FlagResult × World σ :=
  let r := client.UnpausePipeline w.state team name
  (r.1, { state := r.2, calls := w.calls ++ [Call.UnpausePipeline team name] })

def DeletePipeline (client : Client σ) (team name : String) (w : World σ) :
    FlagResult × World σ :=
  let r := client.DeletePipeline w.state team name
  (r.1, { state := r.2, calls := w.calls ++ [Call.DeletePipeline team name] })

end Team

/-! ## The functions of `pipeline.go` -/

variable {σ : Type}

/-- `pipelineID` (lines 111-113): `fmt.Sprintf("%s:%s", teamName, pipelineName)`. -/
def pipelineID (teamName : String) (pipelineName : String) : String :=
  teamName ++ ":" ++ pipelineName

/-- `readPipeline` (lines 115-179). Returns the Go pair `(retVal, err)` and
the world after the calls made. -/
def readPipeline (client : Client σ) (cv : Codec) (teamName pipelineName : String)
    (w : World σ) : (pipelineHelper × Option String) × World σ :=
  let retVal : pipelineHelper :=
    { TeamName := teamName, PipelineName := pipelineName,
      IsExposed := false, IsPaused := false, JSON := "", YAML := "" }
  let p := Team.Pipeline client teamName pipelineName w
  match p.1.err with
  | some err => ((retVal, some err), p.2)
  | none =>
    if !p.1.found then
      ((retVal, some ("Could not find pipeline " ++ pipelineName ++ " within team " ++ teamName)),
        p.2)
    else
      let c := Team.PipelineConfig client teamName pipelineName p.2
      match c.1.err with
      | some err =>
        ((retVal, some ("Error looking up pipeline " ++ pipelineName ++ " within team '" ++
            teamName ++ "': " ++ err)), c.2)
      | none =>
        if !c.1.found then
          ((retVal, some ("No pipeline " ++ pipelineName ++ " found within team " ++ teamName)),
            c.2)
        else
          match cv.JSONToJSON c.1.rawConfig with
          | .error err =>
            ((retVal, some ("Encountered error parsing pipeline " ++ pipelineName ++
                " config within team '" ++ teamName ++ "': " ++ err)), c.2)
          | .ok pipelineCfgJSON =>
            match cv.JSONToYAML pipelineCfgJSON with
            | .error err =>
              ((retVal, some ("Encountered error parsing pipeline " ++ pipelineName ++
                  " config within team '" ++ teamName ++ "': " ++ err)), c.2)
            | .ok pipelineCfgYAML =>
              (({ retVal with
                    IsExposed := p.1.pipeline.Public
                    IsPaused := p.1.pipeline.Paused
                    JSON := pipelineCfgJSON
                    YAML := pipelineCfgYAML }, none), c.2)

/-- `resourcePipelineRead` (lines 208-229). -/
def resourcePipelineRead (client : Client σ) (cv : Codec) (d : ResourceData) (w : World σ) :
    Option String × ResourceData × World σ :=
  let pipelineName := d.pipeline_name
  let teamName := d.team_name
  let r := readPipeline client cv teamName pipelineName w
  match r.1.2 with
  | some err =>
    (some ("Error reading pipeline " ++ pipelineName ++ " from team '" ++ teamName ++ "': " ++
        err), d, r.2)
  | none =>
    (none,
      { d.SetId (pipelineID teamName pipelineName) with
          is_exposed := r.1.1.IsExposed
          is_paused := r.1.1.IsPaused
          json := r.1.1.JSON
          yaml := r.1.1.YAML }, r.2)

/-- The loop of lines 259-262: starting from the empty string, append
`fmt.Sprintf("%s: %s\n", w.Type, w.Message)` for each warning in order. -/
def warningText (configWarnings : List ConfigWarning) : String :=
  configWarnings.foldl (fun warnings w => warnings ++ (w.Type_ ++ ": " ++ w.Message ++ "\n")) ""

/-- The visibility block of `resourcePipelineUpdate` (lines 277-305): the
error it returns with, or `none` when control falls through to the next
block. -/
def exposeOrHide (client : Client σ) (d : ResourceData) (teamName pipelineName : String)
    (w : World σ) : Option String × World σ :=
  if d.is_exposed then
    let r := Team.ExposePipeline client teamName pipelineName w
    match r.1.err with
    | some err =>
      (some ("Error exposing pipeline " ++ pipelineName ++ " in team '" ++ teamName ++ "': " ++
          err), r.2)
    | none =>
      if !r.1.found then
        (some ("Could not find pipeline " ++ pipelineName ++ " in team '" ++ teamName ++ "': " ++
            fmtError r.1.err), r.2)
      else (none, r.2)
  else
    let r := Team.HidePipeline client teamName pipelineName w
    match r.1.err with
    | some err =>
      (some ("Error hiding pipeline " ++ pipelineName ++ " in team '" ++ teamName ++ "': " ++
          err), r.2)
    | none =>
      if !r.1.found then
        (some ("Could not find pipeline " ++ pipelineName ++ " in team '" ++ teamName ++ "': " ++
            fmtError r.1.err), r.2)
      else (none, r.2)

/-- The pause block of `resourcePipelineUpdate` (lines 307-335), in the same
form as `exposeOrHide`. -/
def pauseOrUnpause (client : Client σ) (d : ResourceData) (teamName pipelineName : String)
    (w : World σ) : Option String × World σ :=
  if d.is_paused then
    let r := Team.PausePipeline client teamName pipelineName w
    match r.1.err with
    | some err =>
      (some ("Error pausing pipeline " ++ pipelineName ++ " in team '" ++ teamName ++ "': " ++
          err), r.2)
    | none =>
      if !r.1.found then
        (some ("Could not find pipeline " ++ pipelineName ++ " in team '" ++ teamName ++ "': " ++
            fmtError r.1.err), r.2)
      else (none, r.2)
  else
    let r := Team.UnpausePipeline client teamName pipelineName w
    match r.1.err with
    | some err =>
      (some ("Error unpausing pipeline " ++ pipelineName ++ " in team '" ++ teamName ++ "': " ++
          err), r.2)
    | none =>
      if !r.1.found then
        (some ("Could not find pipeline " ++ pipelineName ++ " in team '" ++ teamName ++ "': " ++
            fmtError r.1.err), r.2)
      else (none, r.2)

/-- `resourcePipelineUpdate` (lines 231-338). -/
def resourcePipelineUpdate (client : Client σ) (cv : Codec) (d : ResourceData) (w : World σ) :
    Option String × ResourceData × World σ :=
  let pipelineName := d.pipeline_name
  let teamName := d.team_name
  let d := d.SetId (pipelineID teamName pipelineName)
  let pipelineConfig := d.pipeline_config
  let pipelineConfigFormat := d.pipeline_config_format
  match cv.ParsePipelineConfig pipelineConfig pipelineConfigFormat with
  | .error err => (some ("Error parsing pipeline_config: " ++ err), d, w)
  | .ok parsedJSON =>
    let up := Team.CreateOrUpdatePipelineConfig client teamName pipelineName "0" parsedJSON
      false w
    if up.1.not_created then
      (some ("Encountered error setting config for pipeline " ++ pipelineName ++ " in team '" ++
          teamName ++ "': " ++ fmtError up.1.err), d, up.2)
    else if up.1.warnings.length ≠ 0 then
      (some ("Encountered pipeline warnings (" ++ pipelineName ++ "/" ++ teamName ++ "):\n " ++
          warningText up.1.warnings), d, up.2)
    else if up.1.not_created then
      (some ("Could not create/update pipeline " ++ pipelineName ++ " in team " ++ teamName),
        d, up.2)
    else
      let vis := exposeOrHide client d teamName pipelineName up.2
      match vis.1 with
      | some e => (some e, d, vis.2)
      | none =>
        let pz := pauseOrUnpause client d teamName pipelineName vis.2
        match pz.1 with
        | some e => (some e, d, pz.2)
        | none => resourcePipelineRead client cv d pz.2

/-- `resourcePipelineDelete` (lines 340-363). -/
def resourcePipelineDelete (client : Client σ) (d : ResourceData) (w : World σ) :
    Option String × ResourceData × World σ :=
  let pipelineName := d.pipeline_name
  let teamName := d.team_name
  let r := Team.DeletePipeline client teamName pipelineName w
  match r.1.err with
  | some err =>
    (some ("Could not delete pipeline " ++ pipelineName ++ " from team " ++ teamName ++ ": " ++
        err), d, r.2)
  | none =>
    if !r.1.found then
      (some ("Could not delete pipeline " ++ pipelineName ++ " from team " ++ teamName), d, r.2)
    else (none, d.SetId "", r.2)

/-! ## Vocabulary of the statements -/

/-- The text `part` occurs in `msg` as a contiguous run of characters. -/
def Contains (msg part : String) : Prop :=
  part.data <:+: msg.data

instance (msg part : String) : Decidable (Contains msg part) := by
  unfold Contains
  infer_instance

/-- What the backend answers to the upload issued by `resourcePipelineUpdate`
from the world `w`, once the config has parsed to `parsedJSON`. -/
def uploadAnswer (client : Client σ) (d : ResourceData) (w : World σ) (parsedJSON : String) :
    SetConfigResult × σ :=
  client.CreateOrUpdatePipelineConfig w.state d.team_name d.pipeline_name "0" parsedJSON false

/-- The world in which the visibility block starts: the state the upload
left, and the upload added to the call log. -/
def worldAfterUpload (client : Client σ) (d : ResourceData) (w : World σ)
    (parsedJSON : String) : World σ :=
  { state := (uploadAnswer client d w parsedJSON).2
    calls := w.calls ++
      [Call.CreateOrUpdatePipelineConfig d.team_name d.pipeline_name "0" parsedJSON false] }

/-- What the backend answers, in state `s`, to the selected visibility call. -/
def visibilityAnswer (client : Client σ) (d : ResourceData) (s : σ) : FlagResult × σ :=
  if d.is_exposed then client.ExposePipeline s d.team_name d.pipeline_name
  else client.HidePipeline s d.team_name d.pipeline_name

/-- What the backend answers, in state `s`, to the selected pause call. -/
def pauseAnswer (client : Client σ) (d : ResourceData) (s : σ) : FlagResult × σ :=
  if d.is_paused then client.PausePipeline s d.team_name d.pipeline_name
  else client.UnpausePipeline s d.team_name d.pipeline_name

/-- The backend state reached after the upload and the two selected toggle
calls, the state in which the final re-read starts. -/
def stateAfterToggles (client : Client σ) (d : ResourceData) (w : World σ)
    (parsedJSON : String) : σ :=
  (pauseAnswer client d
    (visibilityAnswer client d (uploadAnswer client d w parsedJSON).2).2).2

/-- The text the spec gives for a list of warnings: the lines
`<type>: <message>` each followed by a newline, concatenated in order. -/
def warningLines : List ConfigWarning → String
  | [] => ""
  | w :: ws => (w.Type_ ++ ": " ++ w.Message ++ "\n") ++ warningLines ws

/-! ## Concrete backends used to exercise the statements -/

/-- The fixed answers of a stateless backend, one per operation. -/
structure Answers where
  pipeline : PipelineResult
  pipelineConfig : PipelineConfigResult
  setConfig : SetConfigResult
  expose : FlagResult
  hide : FlagResult
  pause : FlagResult
  unpause : FlagResult
  delete : FlagResult

/-- A backend without state that gives the same answer to every call of an
operation. -/
def fixedClient (a : Answers) : Client Unit where
  Pipeline := fun s _ _ => (a.pipeline, s)
  PipelineConfig := fun s _ _ => (a.pipelineConfig, s)
  CreateOrUpdatePipelineConfig := fun s _ _ _ _ _ => (a.setConfig, s)
  ExposePipeline := fun s _ _ => (a.expose, s)
  HidePipeline := fun s _ _ => (a.hide, s)
  PausePipeline := fun s _ _ => (a.pause, s)
  UnpausePipeline := fun s _ _ => (a.unpause, s)
  DeletePipeline := fun s _ _ => (a.delete, s)

/-- Answers of a backend on which every operation succeeds; the pipeline is
reported hidden and paused. -/
def healthy : Answers where
  pipeline := { pipeline := { Name := "ci", TeamName := "main", Paused := true, Public := false },
                found := true, err := none }
  pipelineConfig := { rawConfig := "\x7b\x7d", version := "1", found := true, err := none }
  setConfig := { created := true, not_created := false, warnings := [], err := none }
  expose := { found := true, err := none }
  hide := { found := true, err := none }
  pause := { found := true, err := none }
  unpause := { found := true, err := none }
  delete := { found := true, err := none }

/-- Conversions that accept every document and return it unchanged. -/
def passCodec : Codec where
  ParsePipelineConfig := fun raw _ => .ok raw
  JSONToJSON := fun s => .ok s
  JSONToYAML := fun s => .ok s

/-- The world before any call. -/
def freshWorld : World Unit := { state := (), calls := [] }

/-- Resource data asking for pipeline `ci` of team `main`, exposed and not
paused. -/
def sampleData : ResourceData where
  Id := "old-id"
  pipeline_name := "ci"
  team_name := "main"
  is_exposed := true
  is_paused := false
  pipeline_config_format := "json"
  pipeline_config := "\x7b\x7d"
  json := ""
  yaml := ""

/-- Answers of a backend whose upload fails: not created, an error, and a
warning in the same answer. -/
def uploadRefused : Answers :=
  { healthy with
    setConfig := { created := false, not_created := true,
                   warnings := [{ Type_ := "deprecation", Message := "old field" }],
                   err := some "connection refused" } }

/-- Answers of a backend whose upload returns an error while leaving both
flags false and the warnings empty. -/
def uploadErrorOnly : Answers :=
  { healthy with
    setConfig := { created := false, not_created := false, warnings := [],
                   err := some "connection refused" } }

/-- Answers of a backend that accepts the upload and reports two warnings. -/
def uploadWarned : Answers :=
  { healthy with
    setConfig := { created := true, not_created := false,
                   warnings := [{ Type_ := "deprecation", Message := "old field" },
                                { Type_ := "pipeline", Message := "unused resource" }],
                   err := none } }

/-! ## Lemmas on texts -/

theorem Contains.refl (s : String) : Contains s s :=
  List.infix_refl _

theorem Contains.append_left {a s : String} (b : String) (h : Contains a s) :
    Contains (a ++ b) s := by
  unfold Contains at *
  rw [String.data_append]
  exact List.IsInfix.trans h (List.infix_append' [] a.data b.data)

theorem Contains.append_right (a : String) {b s : String} (h : Contains b s) :
    Contains (a ++ b) s := by
  unfold Contains at *
  rw [String.data_append]
  exact List.IsInfix.trans h (List.suffix_append a.data b.data).isInfix

theorem split_at_delimiter {α : Type} (c : α) :
    ∀ (a₁ a₂ b₁ b₂ : List α), c ∉ a₁ → c ∉ a₂ → a₁ ++ c :: b₁ = a₂ ++ c :: b₂ →
      a₁ = a₂ ∧ b₁ = b₂ := by
  intro a₁
  induction a₁ with
  | nil =>
    intro a₂ b₁ b₂ _ h2 h
    cases a₂ with
    | nil => simpa using h
    | cons x xs =>
      simp only [List.nil_append, List.cons_append, List.cons.injEq] at h
      exact absurd (by simp [h.1]) h2
  | cons y ys ih =>
    intro a₂ b₁ b₂ h1 h2 h
    cases a₂ with
    | nil =>
      simp only [List.nil_append, List.cons_append, List.cons.injEq] at h
      exact absurd (by simp [h.1]) h1
    | cons x xs =>
      simp only [List.cons_append, List.cons.injEq] at h
      have hy : c ∉ ys := fun hc => h1 (List.mem_cons_of_mem _ hc)
      have hx : c ∉ xs := fun hc => h2 (List.mem_cons_of_mem _ hc)
      obtain ⟨e1, e2⟩ := ih xs b₁ b₂ hy hx h.2
      exact ⟨by rw [h.1, e1], e2⟩

theorem warningText_from (ws : List ConfigWarning) (acc : String) :
    ws.foldl (fun warnings w => warnings ++ (w.Type_ ++ ": " ++ w.Message ++ "\n")) acc =
      acc ++ warningLines ws := by
  induction ws generalizing acc with
  | nil => simp [warningLines]
  | cons w ws ih =>
    rw [List.foldl_cons, ih, warningLines, String.append_assoc]

/-! ## Lemmas on the blocks of the write path -/

theorem exposeOrHide_world (client : Client σ) (d : ResourceData) (id : String) (w : World σ) :
    (exposeOrHide client (d.SetId id) d.team_name d.pipeline_name w).2 =
      { state := (visibilityAnswer client d w.state).2
        calls := w.calls ++
          [if d.is_exposed then Call.ExposePipeline d.team_name d.pipeline_name
           else Call.HidePipeline d.team_name d.pipeline_name] } := by
  unfold exposeOrHide visibilityAnswer Team.ExposePipeline Team.HidePipeline
  simp only [ResourceData.SetId]
  by_cases he : d.is_exposed = true
  · simp only [he, if_true]
    generalize client.ExposePipeline w.state d.team_name d.pipeline_name = r
    obtain ⟨⟨found, err⟩, s⟩ := r
    cases err <;> cases found <;> simp
  · simp only [he, if_false]
    generalize client.HidePipeline w.state d.team_name d.pipeline_name = r
    obtain ⟨⟨found, err⟩, s⟩ := r
    cases err <;> cases found <;> simp

theorem exposeOrHide_result (client : Client σ) (d : ResourceData) (id : String) (w : World σ) :
    (exposeOrHide client (d.SetId id) d.team_name d.pipeline_name w).1 = none ↔
      (visibilityAnswer client d w.state).1.found = true ∧
      (visibilityAnswer client d w.state).1.err = none := by
  unfold exposeOrHide visibilityAnswer Team.ExposePipeline Team.HidePipeline
  simp only [ResourceData.SetId]
  by_cases he : d.is_exposed = true
  · simp only [he, if_true]
    generalize client.ExposePipeline w.state d.team_name d.pipeline_name = r
    obtain ⟨⟨found, err⟩, s⟩ := r
    cases err <;> cases found <;> simp
  · simp only [he, if_false]
    generalize client.HidePipeline w.state d.team_name d.pipeline_name = r
    obtain ⟨⟨found, err⟩, s⟩ := r
    cases err <;> cases found <;> simp

theorem pauseOrUnpause_world (client : Client σ) (d : ResourceData) (id : String) (w : World σ) :
    (pauseOrUnpause client (d.SetId id) d.team_name d.pipeline_name w).2 =
      { state := (pauseAnswer client d w.state).2
        calls := w.calls ++
          [if d.is_paused then Call.PausePipeline d.team_name d.pipeline_name
           else Call.UnpausePipeline d.team_name d.pipeline_name] } := by
  unfold pauseOrUnpause pauseAnswer Team.PausePipeline Team.UnpausePipeline
  simp only [ResourceData.SetId]
  by_cases he : d.is_paused = true
  · simp only [he, if_true]
    generalize client.PausePipeline w.state d.team_name d.pipeline_name = r
    obtain ⟨⟨found, err⟩, s⟩ := r
    cases err <;> cases found <;> simp
  · simp only [he, if_false]
    generalize client.UnpausePipeline w.state d.team_name d.pipeline_name = r
    obtain ⟨⟨found, err⟩, s⟩ := r
    cases err <;> cases found <;> simp

theorem pauseOrUnpause_result (client : Client σ) (d : ResourceData) (id : String) (w : World σ) :
    (pauseOrUnpause client (d.SetId id) d.team_name d.pipeline_name w).1 = none ↔
      (pauseAnswer client d w.state).1.found = true ∧
      (pauseAnswer client d w.state).1.err = none := by
  unfold pauseOrUnpause pauseAnswer Team.PausePipeline Team.UnpausePipeline
  simp only [ResourceData.SetId]
  by_cases he : d.is_paused = true
  · simp only [he, if_true]
    generalize client.PausePipeline w.state d.team_name d.pipeline_name = r
    obtain ⟨⟨found, err⟩, s⟩ := r
    cases err <;> cases found <;> simp
  · simp only [he, if_false]
    generalize client.UnpausePipeline w.state d.team_name d.pipeline_name = r
    obtain ⟨⟨found, err⟩, s⟩ := r
    cases err <;> cases found <;> simp

/-- A successful `readPipeline`: both lookups found the pipeline without
error, both conversions succeeded, and the helper holds the looked-up flags
and the converted documents. -/
theorem readPipeline_ok (client : Client σ) (cv : Codec) (teamName pipelineName : String)
    (w : World σ) (h : (readPipeline client cv teamName pipelineName w).1.2 = none) :
    ∃ j y,
      cv.JSONToJSON (client.PipelineConfig (client.Pipeline w.state teamName pipelineName).2
          teamName pipelineName).1.rawConfig = .ok j ∧
      cv.JSONToYAML j = .ok y ∧
      (readPipeline client cv teamName pipelineName w).1.1 =
        { TeamName := teamName, PipelineName := pipelineName,
          IsExposed := (client.Pipeline w.state teamName pipelineName).1.pipeline.Public,
          IsPaused := (client.Pipeline w.state teamName pipelineName).1.pipeline.Paused,
          JSON := j, YAML := y } ∧
      (readPipeline client cv teamName pipelineName w).2 =
        { state := (client.PipelineConfig (client.Pipeline w.state teamName pipelineName).2
            teamName pipelineName).2
          calls := w.calls ++ [Call.Pipeline teamName pipelineName,
                               Call.PipelineConfig teamName pipelineName] } := by
  revert h
  unfold readPipeline Team.Pipeline Team.PipelineConfig
  generalize client.Pipeline w.state teamName pipelineName = r
  obtain ⟨⟨pl, found, err⟩, s⟩ := r
  cases err <;> cases found <;> simp
  generalize client.PipelineConfig s teamName pipelineName = c
  obtain ⟨⟨raw, ver, cfound, cerr⟩, s2⟩ := c
  cases cerr <;> cases cfound <;> simp
  cases hj : cv.JSONToJSON raw with
  | error e => simp
  | ok j =>
    cases hy : cv.JSONToYAML j with
    | error e => simp [hy]
    | ok y => simp [hy]

theorem resourcePipelineRead_ok (client : Client σ) (cv : Codec) (d : ResourceData)
    (w : World σ) (h : (resourcePipelineRead client cv d w).1 = none) :
    (readPipeline client cv d.team_name d.pipeline_name w).1.2 = none ∧
    (resourcePipelineRead client cv d w).2.1 =
      { d with
          Id := pipelineID d.team_name d.pipeline_name
          is_exposed := (readPipeline client cv d.team_name d.pipeline_name w).1.1.IsExposed
          is_paused := (readPipeline client cv d.team_name d.pipeline_name w).1.1.IsPaused
          json := (readPipeline client cv d.team_name d.pipeline_name w).1.1.JSON
          yaml := (readPipeline client cv d.team_name d.pipeline_name w).1.1.YAML } ∧
    (resourcePipelineRead client cv d w).2.2 =
      (readPipeline client cv d.team_name d.pipeline_name w).2 := by
  revert h
  unfold resourcePipelineRead
  cases hr : (readPipeline client cv d.team_name d.pipeline_name w).1.2 with
  | some e => simp [hr]
  | none => simp [hr, ResourceData.SetId]

/-- The upload did not pass the checks of lines 251-275: the write stops
there. -/
theorem resourcePipelineUpdate_upload_rejected (client : Client σ) (cv : Codec)
    (d : ResourceData) (w : World σ) (parsedJSON : String)
    (hparse : cv.ParsePipelineConfig d.pipeline_config d.pipeline_config_format =
      .ok parsedJSON)
    (h : (uploadAnswer client d w parsedJSON).1.not_created = true ∨
      (uploadAnswer client d w parsedJSON).1.warnings ≠ []) :
    (resourcePipelineUpdate client cv d w).1 ≠ none ∧
    (resourcePipelineUpdate client cv d w).2.2 = worldAfterUpload client d w parsedJSON := by
  unfold uploadAnswer at h
  simp only [resourcePipelineUpdate, ResourceData.SetId, hparse,
    Team.CreateOrUpdatePipelineConfig, worldAfterUpload, uploadAnswer]
  by_cases hnc :
      (client.CreateOrUpdatePipelineConfig w.state d.team_name d.pipeline_name "0" parsedJSON
        false).1.not_created = true
  · simp [hnc]
  · have hws := h.resolve_left hnc
    simp [hnc, hws]

/-- The write path once the config has parsed and the upload has passed the
checks of lines 251-275, when the visibility block returns an error. -/
theorem resourcePipelineUpdate_visibility_failed (client : Client σ) (cv : Codec)
    (d : ResourceData) (w : World σ) (parsedJSON e : String)
    (hparse : cv.ParsePipelineConfig d.pipeline_config d.pipeline_config_format =
      .ok parsedJSON)
    (hnc : (uploadAnswer client d w parsedJSON).1.not_created = false)
    (hws : (uploadAnswer client d w parsedJSON).1.warnings = [])
    (hv : (exposeOrHide client (d.SetId (pipelineID d.team_name d.pipeline_name))
      d.team_name d.pipeline_name (worldAfterUpload client d w parsedJSON)).1 = some e) :
    resourcePipelineUpdate client cv d w =
      (some e, d.SetId (pipelineID d.team_name d.pipeline_name),
        (exposeOrHide client (d.SetId (pipelineID d.team_name d.pipeline_name))
          d.team_name d.pipeline_name (worldAfterUpload client d w parsedJSON)).2) := by
  unfold uploadAnswer at hnc hws
  unfold worldAfterUpload uploadAnswer at hv
  simp only [ResourceData.SetId] at hv
  simp [resourcePipelineUpdate, ResourceData.SetId, hparse,
    Team.CreateOrUpdatePipelineConfig, worldAfterUpload, uploadAnswer, hnc, hws, hv]

/-- The same, when the visibility block passes and the pause block returns an
error. -/
theorem resourcePipelineUpdate_pause_failed (client : Client σ) (cv : Codec)
    (d : ResourceData) (w : World σ) (parsedJSON e : String)
    (hparse : cv.ParsePipelineConfig d.pipeline_config d.pipeline_config_format =
      .ok parsedJSON)
    (hnc : (uploadAnswer client d w parsedJSON).1.not_created = false)
    (hws : (uploadAnswer client d w parsedJSON).1.warnings = [])
    (hv : (exposeOrHide client (d.SetId (pipelineID d.team_name d.pipeline_name))
      d.team_name d.pipeline_name (worldAfterUpload client d w parsedJSON)).1 = none)
    (hp : (pauseOrUnpause client (d.SetId (pipelineID d.team_name d.pipeline_name))
      d.team_name d.pipeline_name
      (exposeOrHide client (d.SetId (pipelineID d.team_name d.pipeline_name))
        d.team_name d.pipeline_name (worldAfterUpload client d w parsedJSON)).2).1 = some e) :
    resourcePipelineUpdate client cv d w =
      (some e, d.SetId (pipelineID d.team_name d.pipeline_name),
        (pauseOrUnpause client (d.SetId (pipelineID d.team_name d.pipeline_name))
          d.team_name d.pipeline_name
          (exposeOrHide client (d.SetId (pipelineID d.team_name d.pipeline_name))
            d.team_name d.pipeline_name (worldAfterUpload client d w parsedJSON)).2).2) := by
  unfold uploadAnswer at hnc hws
  unfold worldAfterUpload uploadAnswer at hv hp
  simp only [ResourceData.SetId] at hv hp
  simp [resourcePipelineUpdate, ResourceData.SetId, hparse,
    Team.CreateOrUpdatePipelineConfig, worldAfterUpload, uploadAnswer, hnc, hws, hv, hp]

/-- The same, when both blocks pass: the result is that of the re-read. -/
theorem resourcePipelineUpdate_reread (client : Client σ) (cv : Codec)
    (d : ResourceData) (w : World σ) (parsedJSON : String)
    (hparse : cv.ParsePipelineConfig d.pipeline_config d.pipeline_config_format =
      .ok parsedJSON)
    (hnc : (uploadAnswer client d w parsedJSON).1.not_created = false)
    (hws : (uploadAnswer client d w parsedJSON).1.warnings = [])
    (hv : (exposeOrHide client (d.SetId (pipelineID d.team_name d.pipeline_name))
      d.team_name d.pipeline_name (worldAfterUpload client d w parsedJSON)).1 = none)
    (hp : (pauseOrUnpause client (d.SetId (pipelineID d.team_name d.pipeline_name))
      d.team_name d.pipeline_name
      (exposeOrHide client (d.SetId (pipelineID d.team_name d.pipeline_name))
        d.team_name d.pipeline_name (worldAfterUpload client d w parsedJSON)).2).1 = none) :
    resourcePipelineUpdate client cv d w =
      resourcePipelineRead client cv (d.SetId (pipelineID d.team_name d.pipeline_name))
        (pauseOrUnpause client (d.SetId (pipelineID d.team_name d.pipeline_name))
          d.team_name d.pipeline_name
          (exposeOrHide client (d.SetId (pipelineID d.team_name d.pipeline_name))
            d.team_name d.pipeline_name (worldAfterUpload client d w parsedJSON)).2).2 := by
  unfold uploadAnswer at hnc hws
  unfold worldAfterUpload uploadAnswer at hv hp
  simp only [ResourceData.SetId] at hv hp
  simp [resourcePipelineUpdate, ResourceData.SetId, hparse,
    Team.CreateOrUpdatePipelineConfig, worldAfterUpload, uploadAnswer, hnc, hws, hv, hp]

/-- A write that returns no error: the config parsed, the upload passed, both
selected toggles answered found without error, and the result is that of the
re-read started in the state the toggles left. -/
theorem resourcePipelineUpdate_ok (client : Client σ) (cv : Codec) (d : ResourceData)
    (w : World σ) (hok : (resourcePipelineUpdate client cv d w).1 = none) :
    ∃ parsedJSON,
      cv.ParsePipelineConfig d.pipeline_config d.pipeline_config_format = .ok parsedJSON ∧
      (uploadAnswer client d w parsedJSON).1.not_created = false ∧
      (uploadAnswer client d w parsedJSON).1.warnings = [] ∧
      resourcePipelineUpdate client cv d w =
        resourcePipelineRead client cv (d.SetId (pipelineID d.team_name d.pipeline_name))
          { state := stateAfterToggles client d w parsedJSON
            calls := w.calls ++
              [Call.CreateOrUpdatePipelineConfig d.team_name d.pipeline_name "0" parsedJSON false,
               if d.is_exposed then Call.ExposePipeline d.team_name d.pipeline_name
               else Call.HidePipeline d.team_name d.pipeline_name,
               if d.is_paused then Call.PausePipeline d.team_name d.pipeline_name
               else Call.UnpausePipeline d.team_name d.pipeline_name] } := by
  cases hparse : cv.ParsePipelineConfig d.pipeline_config d.pipeline_config_format with
  | error e =>
    simp [resourcePipelineUpdate, ResourceData.SetId, hparse] at hok
  | ok parsedJSON =>
    refine ⟨parsedJSON, rfl, ?_⟩
    by_cases hnc : (uploadAnswer client d w parsedJSON).1.not_created = true
    · exact absurd hok
        (resourcePipelineUpdate_upload_rejected client cv d w parsedJSON hparse (Or.inl hnc)).1
    by_cases hws : (uploadAnswer client d w parsedJSON).1.warnings = []
    swap
    · exact absurd hok
        (resourcePipelineUpdate_upload_rejected client cv d w parsedJSON hparse (Or.inr hws)).1
    have hnc' : (uploadAnswer client d w parsedJSON).1.not_created = false := by
      simpa using hnc
    refine ⟨hnc', hws, ?_⟩
    cases hv : (exposeOrHide client (d.SetId (pipelineID d.team_name d.pipeline_name))
        d.team_name d.pipeline_name (worldAfterUpload client d w parsedJSON)).1 with
    | some e =>
      rw [resourcePipelineUpdate_visibility_failed client cv d w parsedJSON e hparse hnc' hws hv]
        at hok
      simp at hok
    | none =>
      cases hp : (pauseOrUnpause client (d.SetId (pipelineID d.team_name d.pipeline_name))
          d.team_name d.pipeline_name
          (exposeOrHide client (d.SetId (pipelineID d.team_name d.pipeline_name))
            d.team_name d.pipeline_name (worldAfterUpload client d w parsedJSON)).2).1 with
      | some e =>
        rw [resourcePipelineUpdate_pause_failed client cv d w parsedJSON e hparse hnc' hws hv hp]
          at hok
        simp at hok
      | none =>
        rw [resourcePipelineUpdate_reread client cv d w parsedJSON hparse hnc' hws hv hp,
          pauseOrUnpause_world, exposeOrHide_world]
        simp [worldAfterUpload, stateAfterToggles]

/-! ## Lemmas on error messages -/

theorem exposeOrHide_not_found (client : Client σ) (d : ResourceData) (id : String)
    (w : World σ) (hf : (visibilityAnswer client d w.state).1.found = false)
    (he : (visibilityAnswer client d w.state).1.err = none) :
    (exposeOrHide client (d.SetId id) d.team_name d.pipeline_name w).1 =
      some ("Could not find pipeline " ++ d.pipeline_name ++ " in team '" ++ d.team_name ++
        "': " ++ "%!s(<nil>)") := by
  revert hf he
  unfold exposeOrHide visibilityAnswer Team.ExposePipeline Team.HidePipeline
  simp only [ResourceData.SetId]
  by_cases hx : d.is_exposed = true
  · simp only [hx, if_true]
    generalize client.ExposePipeline w.state d.team_name d.pipeline_name = r
    obtain ⟨⟨found, err⟩, s⟩ := r
    rintro rfl rfl
    simp [fmtError]
  · simp only [hx, if_false]
    generalize client.HidePipeline w.state d.team_name d.pipeline_name = r
    obtain ⟨⟨found, err⟩, s⟩ := r
    rintro rfl rfl
    simp [fmtError]

theorem pauseOrUnpause_not_found (client : Client σ) (d : ResourceData) (id : String)
    (w : World σ) (hf : (pauseAnswer client d w.state).1.found = false)
    (he : (pauseAnswer client d w.state).1.err = none) :
    (pauseOrUnpause client (d.SetId id) d.team_name d.pipeline_name w).1 =
      some ("Could not find pipeline " ++ d.pipeline_name ++ " in team '" ++ d.team_name ++
        "': " ++ "%!s(<nil>)") := by
  revert hf he
  unfold pauseOrUnpause pauseAnswer Team.PausePipeline Team.UnpausePipeline
  simp only [ResourceData.SetId]
  by_cases hx : d.is_paused = true
  · simp only [hx, if_true]
    generalize client.PausePipeline w.state d.team_name d.pipeline_name = r
    obtain ⟨⟨found, err⟩, s⟩ := r
    rintro rfl rfl
    simp [fmtError]
  · simp only [hx, if_false]
    generalize client.UnpausePipeline w.state d.team_name d.pipeline_name = r
    obtain ⟨⟨found, err⟩, s⟩ := r
    rintro rfl rfl
    simp [fmtError]

/-- C10: `pipelineID team name` is `team ++ ":" ++ name`, `("main", "ci")`
gives `"main:ci"`, and on team names without a colon the identifier determines
both components. -/
theorem pipelineID_format_and_injective (team1 name1 team2 name2 : String) :
    pipelineID team1 name1 = team1 ++ ":" ++ name1 ∧
    pipelineID "main" "ci" = "main:ci" ∧
    (':' ∉ team1.data → ':' ∉ team2.data →
      pipelineID team1 name1 = pipelineID team2 name2 → team1 = team2 ∧ name1 = name2) := by
  refine ⟨rfl, by decide, ?_⟩
  intro h1 h2 h
  have h' := congrArg String.data h
  simp only [pipelineID, String.data_append] at h'
  simp only [List.append_assoc, List.singleton_append] at h'
  obtain ⟨e1, e2⟩ := split_at_delimiter ':' _ _ _ _ h1 h2 h'
  exact ⟨String.ext e1, String.ext e2⟩

/-- Instance of C10 at two equal identifiers whose pipeline name holds a colon. -/
theorem pipelineID_format_and_injective_witness :
    ':' ∉ ("main" : String).data ∧ pipelineID "main" "ci:a" = pipelineID "main" "ci:a" ∧
    pipelineID "main" "ci:a" = "main" ++ ":" ++ "ci:a" ∧ ("main" = "main" ∧ "ci:a" = "ci:a") :=
  ⟨by decide, rfl,
    (pipelineID_format_and_injective "main" "ci:a" "main" "ci:a").1,
    (pipelineID_format_and_injective "main" "ci:a" "main" "ci:a").2.2
      (by decide) (by decide) rfl⟩

/-- C8: `resourcePipelineDelete` issues the single call `DeletePipeline`; it
returns no error exactly when that call answered `deleted = true` with a nil
error; on success the id is the empty string, on failure the resource data,
id included, is what it was. -/
theorem resourcePipelineDelete_single_call (client : Client σ) (d : ResourceData)
    (w : World σ) :
    (resourcePipelineDelete client d w).2.2.calls =
        w.calls ++ [Call.DeletePipeline d.team_name d.pipeline_name] ∧
    (resourcePipelineDelete client d w).2.2.state =
        (client.DeletePipeline w.state d.team_name d.pipeline_name).2 ∧
    ((resourcePipelineDelete client d w).1 = none ↔
        (client.DeletePipeline w.state d.team_name d.pipeline_name).1.found = true ∧
        (client.DeletePipeline w.state d.team_name d.pipeline_name).1.err = none) ∧
    ((resourcePipelineDelete client d w).1 = none →
        (resourcePipelineDelete client d w).2.1.Id = "") ∧
    ((resourcePipelineDelete client d w).1 ≠ none →
        (resourcePipelineDelete client d w).2.1.Id = d.Id ∧
        (resourcePipelineDelete client d w).2.1 = d) := by
  simp only [resourcePipelineDelete, Team.DeletePipeline]
  generalize client.DeletePipeline w.state d.team_name d.pipeline_name = r
  obtain ⟨⟨found, err⟩, s⟩ := r
  cases err <;> cases found <;> simp [ResourceData.SetId]

/-- Instances of C8: a delete answered `(true, nil)` clears the id, and a
delete answered `(false, nil)` is an error that keeps the id. -/
theorem resourcePipelineDelete_single_call_witness :
    ((resourcePipelineDelete (fixedClient healthy) sampleData freshWorld).1 = none ∧
      (resourcePipelineDelete (fixedClient healthy) sampleData freshWorld).2.1.Id = "") ∧
    ((resourcePipelineDelete
        (fixedClient { healthy with delete := { found := false, err := none } })
        sampleData freshWorld).1 ≠ none ∧
      (resourcePipelineDelete
        (fixedClient { healthy with delete := { found := false, err := none } })
        sampleData freshWorld).2.1.Id = "old-id") :=
  ⟨⟨by decide,
      (resourcePipelineDelete_single_call (fixedClient healthy) sampleData freshWorld).2.2.2.1
        (by decide)⟩,
    ⟨by decide,
      ((resourcePipelineDelete_single_call
        (fixedClient { healthy with delete := { found := false, err := none } })
        sampleData freshWorld).2.2.2.2 (by decide)).1⟩⟩

/-- C6: when the `Pipeline` lookup answers not found with a nil error,
`readPipeline` fails with `Could not find pipeline <p> within team <t>` and
`PipelineConfig` is not called; when the pipeline is found and
`PipelineConfig` answers not found with a nil error, it fails with
`No pipeline <p> found within team <t>`. Both messages contain the pipeline
name and the team name. -/
theorem readPipeline_not_found (client : Client σ) (cv : Codec) (teamName pipelineName : String)
    (w : World σ)
    (hnil : (client.Pipeline w.state teamName pipelineName).1.err = none) :
    ((client.Pipeline w.state teamName pipelineName).1.found = false →
      (readPipeline client cv teamName pipelineName w).1.2 =
          some ("Could not find pipeline " ++ pipelineName ++ " within team " ++ teamName) ∧
      (readPipeline client cv teamName pipelineName w).2.calls =
          w.calls ++ [Call.Pipeline teamName pipelineName] ∧
      Contains ("Could not find pipeline " ++ pipelineName ++ " within team " ++ teamName)
          pipelineName ∧
      Contains ("Could not find pipeline " ++ pipelineName ++ " within team " ++ teamName)
          teamName) ∧
    ((client.Pipeline w.state teamName pipelineName).1.found = true →
      (client.PipelineConfig (client.Pipeline w.state teamName pipelineName).2
          teamName pipelineName).1.found = false →
      (client.PipelineConfig (client.Pipeline w.state teamName pipelineName).2
          teamName pipelineName).1.err = none →
      (readPipeline client cv teamName pipelineName w).1.2 =
          some ("No pipeline " ++ pipelineName ++ " found within team " ++ teamName) ∧
      (readPipeline client cv teamName pipelineName w).2.calls =
          w.calls ++ [Call.Pipeline teamName pipelineName,
                      Call.PipelineConfig teamName pipelineName] ∧
      Contains ("No pipeline " ++ pipelineName ++ " found within team " ++ teamName)
          pipelineName ∧
      Contains ("No pipeline " ++ pipelineName ++ " found within team " ++ teamName)
          teamName) := by
  refine ⟨fun hf => ⟨?_, ?_, ?_, ?_⟩, fun hf hcf hce => ⟨?_, ?_, ?_, ?_⟩⟩
  · simp [readPipeline, Team.Pipeline, hnil, hf]
  · simp [readPipeline, Team.Pipeline, hnil, hf]
  · exact ((Contains.refl _).append_right _).append_left _ |>.append_left _
  · exact (Contains.refl _).append_right _
  · simp [readPipeline, Team.Pipeline, Team.PipelineConfig, hnil, hf, hcf, hce]
  · simp [readPipeline, Team.Pipeline, Team.PipelineConfig, hnil, hf, hcf, hce]
  · exact ((Contains.refl _).append_right _).append_left _ |>.append_left _
  · exact (Contains.refl _).append_right _

/-- Instances of C6: a backend that does not know the pipeline, and a backend
that knows the pipeline but has no config for it. -/
theorem readPipeline_not_found_witness :
    ((readPipeline
        (fixedClient { healthy with
          pipeline := { healthy.pipeline with found := false } })
        passCodec "main" "ci" freshWorld).1.2 =
      some "Could not find pipeline ci within team main" ∧
     (readPipeline
        (fixedClient { healthy with
          pipeline := { healthy.pipeline with found := false } })
        passCodec "main" "ci" freshWorld).2.calls = [Call.Pipeline "main" "ci"]) ∧
    ((readPipeline
        (fixedClient { healthy with
          pipelineConfig := { healthy.pipelineConfig with found := false } })
        passCodec "main" "ci" freshWorld).1.2 =
      some "No pipeline ci found within team main" ∧
     (readPipeline
        (fixedClient { healthy with
          pipelineConfig := { healthy.pipelineConfig with found := false } })
        passCodec "main" "ci" freshWorld).2.calls =
      [Call.Pipeline "main" "ci", Call.PipelineConfig "main" "ci"]) :=
  ⟨⟨((readPipeline_not_found
        (fixedClient { healthy with pipeline := { healthy.pipeline with found := false } })
        passCodec "main" "ci" freshWorld rfl).1 rfl).1,
    ((readPipeline_not_found
        (fixedClient { healthy with pipeline := { healthy.pipeline with found := false } })
        passCodec "main" "ci" freshWorld rfl).1 rfl).2.1⟩,
   ⟨((readPipeline_not_found
        (fixedClient { healthy with
          pipelineConfig := { healthy.pipelineConfig with found := false } })
        passCodec "main" "ci" freshWorld rfl).2 rfl rfl rfl).1,
    ((readPipeline_not_found
        (fixedClient { healthy with
          pipelineConfig := { healthy.pipelineConfig with found := false } })
        passCodec "main" "ci" freshWorld rfl).2 rfl rfl rfl).2.1⟩⟩

/-- C2: when the upload answers with a non-empty list of warnings, the write
returns an error and the upload is the only remote call it made: the call log
grew by that call alone and the backend is left in the state the upload
produced. -/
theorem resourcePipelineUpdate_warnings_abort (client : Client σ) (cv : Codec)
    (d : ResourceData) (w : World σ) (parsedJSON : String)
    (hparse : cv.ParsePipelineConfig d.pipeline_config d.pipeline_config_format =
      .ok parsedJSON)
    (hw : (client.CreateOrUpdatePipelineConfig w.state d.team_name d.pipeline_name "0"
      parsedJSON false).1.warnings ≠ []) :
    (resourcePipelineUpdate client cv d w).1 ≠ none ∧
    (resourcePipelineUpdate client cv d w).2.2.calls =
      w.calls ++
        [Call.CreateOrUpdatePipelineConfig d.team_name d.pipeline_name "0" parsedJSON false] ∧
    (resourcePipelineUpdate client cv d w).2.2.state =
      (client.CreateOrUpdatePipelineConfig w.state d.team_name d.pipeline_name "0"
        parsedJSON false).2 := by
  have h := resourcePipelineUpdate_upload_rejected client cv d w parsedJSON hparse (Or.inr hw)
  refine ⟨h.1, ?_, ?_⟩
  · rw [h.2]; rfl
  · rw [h.2]; rfl

/-- Instance of C2: a backend that accepts the config but reports one
warning; the upload is the only call in the log. -/
theorem resourcePipelineUpdate_warnings_abort_witness :
    (resourcePipelineUpdate
        (fixedClient { healthy with
          setConfig := { healthy.setConfig with
            warnings := [{ Type_ := "deprecation", Message := "old field" }] } })
        passCodec sampleData freshWorld).1 ≠ none ∧
    (resourcePipelineUpdate
        (fixedClient { healthy with
          setConfig := { healthy.setConfig with
            warnings := [{ Type_ := "deprecation", Message := "old field" }] } })
        passCodec sampleData freshWorld).2.2.calls =
      [Call.CreateOrUpdatePipelineConfig "main" "ci" "0" "\x7b\x7d" false] :=
  ⟨(resourcePipelineUpdate_warnings_abort
      (fixedClient { healthy with
        setConfig := { healthy.setConfig with
          warnings := [{ Type_ := "deprecation", Message := "old field" }] } })
      passCodec sampleData freshWorld "\x7b\x7d" rfl (by decide)).1,
   (resourcePipelineUpdate_warnings_abort
      (fixedClient { healthy with
        setConfig := { healthy.setConfig with
          warnings := [{ Type_ := "deprecation", Message := "old field" }] } })
      passCodec sampleData freshWorld "\x7b\x7d" rfl (by decide)).2.1⟩

/-- C3: a write that returns no error has made exactly these remote calls, in
this order: `CreateOrUpdatePipelineConfig` with the pipeline name, version
`"0"`, the parsed config and `false`; `ExposePipeline` when `is_exposed` is
set and `HidePipeline` otherwise; `PausePipeline` when `is_paused` is set and
`UnpausePipeline` otherwise; `Pipeline`; `PipelineConfig`. This holds for
every backend and every backend state, so the toggles chosen depend on the
desired flags alone. -/
theorem resourcePipelineUpdate_call_sequence (client : Client σ) (cv : Codec)
    (d : ResourceData) (w : World σ)
    (hok : (resourcePipelineUpdate client cv d w).1 = none) :
    ∃ parsedJSON,
      cv.ParsePipelineConfig d.pipeline_config d.pipeline_config_format = .ok parsedJSON ∧
      (resourcePipelineUpdate client cv d w).2.2.calls =
        w.calls ++
          [Call.CreateOrUpdatePipelineConfig d.team_name d.pipeline_name "0" parsedJSON false,
           if d.is_exposed then Call.ExposePipeline d.team_name d.pipeline_name
           else Call.HidePipeline d.team_name d.pipeline_name,
           if d.is_paused then Call.PausePipeline d.team_name d.pipeline_name
           else Call.UnpausePipeline d.team_name d.pipeline_name,
           Call.Pipeline d.team_name d.pipeline_name,
           Call.PipelineConfig d.team_name d.pipeline_name] := by
  obtain ⟨parsedJSON, hparse, -, -, heq⟩ := resourcePipelineUpdate_ok client cv d w hok
  refine ⟨parsedJSON, hparse, ?_⟩
  rw [heq] at hok ⊢
  obtain ⟨hread, -, hworld⟩ := resourcePipelineRead_ok client cv _ _ hok
  obtain ⟨j, y, -, -, -, hw⟩ := readPipeline_ok client cv _ _ _ hread
  rw [hworld, hw]
  simp [ResourceData.SetId]

/-- Instances of C3 on a backend whose pipeline is hidden and paused: with
desired flags exposed / not paused the toggles are expose and unpause, with
desired flags hidden / paused they are hide and pause. -/
theorem resourcePipelineUpdate_call_sequence_witness :
    (resourcePipelineUpdate (fixedClient healthy) passCodec sampleData freshWorld).1 = none ∧
    (∃ parsedJSON,
      passCodec.ParsePipelineConfig sampleData.pipeline_config
        sampleData.pipeline_config_format = .ok parsedJSON ∧
      (resourcePipelineUpdate (fixedClient healthy) passCodec sampleData freshWorld).2.2.calls =
        freshWorld.calls ++
          [Call.CreateOrUpdatePipelineConfig "main" "ci" "0" parsedJSON false,
           Call.ExposePipeline "main" "ci", Call.UnpausePipeline "main" "ci",
           Call.Pipeline "main" "ci", Call.PipelineConfig "main" "ci"]) ∧
    (∃ parsedJSON,
      passCodec.ParsePipelineConfig sampleData.pipeline_config
        sampleData.pipeline_config_format = .ok parsedJSON ∧
      (resourcePipelineUpdate (fixedClient healthy) passCodec
          { sampleData with is_exposed := false, is_paused := true } freshWorld).2.2.calls =
        freshWorld.calls ++
          [Call.CreateOrUpdatePipelineConfig "main" "ci" "0" parsedJSON false,
           Call.HidePipeline "main" "ci", Call.PausePipeline "main" "ci",
           Call.Pipeline "main" "ci", Call.PipelineConfig "main" "ci"]) :=
  ⟨by decide,
   resourcePipelineUpdate_call_sequence (fixedClient healthy) passCodec sampleData freshWorld
     (by decide),
   resourcePipelineUpdate_call_sequence (fixedClient healthy) passCodec
     { sampleData with is_exposed := false, is_paused := true } freshWorld (by decide)⟩

/-- C4: after an upload that passed, a selected visibility call answering
not found with a nil error makes the write return an error with the upload
and that call as its only remote calls; and when the visibility call
succeeded, a selected pause call answering not found with a nil error makes
the write return an error after the upload and the two toggles, without the
re-read. -/
theorem resourcePipelineUpdate_toggle_not_found (client : Client σ) (cv : Codec)
    (d : ResourceData) (w : World σ) (parsedJSON : String)
    (hparse : cv.ParsePipelineConfig d.pipeline_config d.pipeline_config_format =
      .ok parsedJSON)
    (hnc : (uploadAnswer client d w parsedJSON).1.not_created = false)
    (hws : (uploadAnswer client d w parsedJSON).1.warnings = []) :
    ((visibilityAnswer client d (uploadAnswer client d w parsedJSON).2).1.found = false →
      (visibilityAnswer client d (uploadAnswer client d w parsedJSON).2).1.err = none →
      (resourcePipelineUpdate client cv d w).1 =
        some ("Could not find pipeline " ++ d.pipeline_name ++ " in team '" ++ d.team_name ++
          "': " ++ "%!s(<nil>)") ∧
      (resourcePipelineUpdate client cv d w).2.2.calls =
        w.calls ++
          [Call.CreateOrUpdatePipelineConfig d.team_name d.pipeline_name "0" parsedJSON false,
           if d.is_exposed then Call.ExposePipeline d.team_name d.pipeline_name
           else Call.HidePipeline d.team_name d.pipeline_name]) ∧
    ((visibilityAnswer client d (uploadAnswer client d w parsedJSON).2).1.found = true →
      (visibilityAnswer client d (uploadAnswer client d w parsedJSON).2).1.err = none →
      (pauseAnswer client d
        (visibilityAnswer client d (uploadAnswer client d w parsedJSON).2).2).1.found = false →
      (pauseAnswer client d
        (visibilityAnswer client d (uploadAnswer client d w parsedJSON).2).2).1.err = none →
      (resourcePipelineUpdate client cv d w).1 =
        some ("Could not find pipeline " ++ d.pipeline_name ++ " in team '" ++ d.team_name ++
          "': " ++ "%!s(<nil>)") ∧
      (resourcePipelineUpdate client cv d w).2.2.calls =
        w.calls ++
          [Call.CreateOrUpdatePipelineConfig d.team_name d.pipeline_name "0" parsedJSON false,
           if d.is_exposed then Call.ExposePipeline d.team_name d.pipeline_name
           else Call.HidePipeline d.team_name d.pipeline_name,
           if d.is_paused then Call.PausePipeline d.team_name d.pipeline_name
           else Call.UnpausePipeline d.team_name d.pipeline_name]) := by
  constructor
  · intro hf he
    have hv := exposeOrHide_not_found client d (pipelineID d.team_name d.pipeline_name)
      (worldAfterUpload client d w parsedJSON) hf he
    rw [resourcePipelineUpdate_visibility_failed client cv d w parsedJSON _ hparse hnc hws hv,
      exposeOrHide_world]
    simp [worldAfterUpload]
  · intro hf he hpf hpe
    have hv := (exposeOrHide_result client d (pipelineID d.team_name d.pipeline_name)
      (worldAfterUpload client d w parsedJSON)).2 ⟨hf, he⟩
    have hpf' : (pauseAnswer client d
        (exposeOrHide client (d.SetId (pipelineID d.team_name d.pipeline_name))
          d.team_name d.pipeline_name
          (worldAfterUpload client d w parsedJSON)).2.state).1.found = false := by
      rw [exposeOrHide_world]; exact hpf
    have hpe' : (pauseAnswer client d
        (exposeOrHide client (d.SetId (pipelineID d.team_name d.pipeline_name))
          d.team_name d.pipeline_name
          (worldAfterUpload client d w parsedJSON)).2.state).1.err = none := by
      rw [exposeOrHide_world]; exact hpe
    have hp := pauseOrUnpause_not_found client d (pipelineID d.team_name d.pipeline_name)
      _ hpf' hpe'
    rw [resourcePipelineUpdate_pause_failed client cv d w parsedJSON _ hparse hnc hws hv hp,
      pauseOrUnpause_world, exposeOrHide_world]
    simp [worldAfterUpload]

/-- Instances of C4: a backend whose `ExposePipeline` answers not found, and
a backend whose `UnpausePipeline` answers not found. -/
theorem resourcePipelineUpdate_toggle_not_found_witness :
    ((resourcePipelineUpdate
        (fixedClient { healthy with expose := { found := false, err := none } })
        passCodec sampleData freshWorld).1 =
      some "Could not find pipeline ci in team 'main': %!s(<nil>)" ∧
     (resourcePipelineUpdate
        (fixedClient { healthy with expose := { found := false, err := none } })
        passCodec sampleData freshWorld).2.2.calls =
      [Call.CreateOrUpdatePipelineConfig "main" "ci" "0" "\x7b\x7d" false,
       Call.ExposePipeline "main" "ci"]) ∧
    ((resourcePipelineUpdate
        (fixedClient { healthy with unpause := { found := false, err := none } })
        passCodec sampleData freshWorld).1 =
      some "Could not find pipeline ci in team 'main': %!s(<nil>)" ∧
     (resourcePipelineUpdate
        (fixedClient { healthy with unpause := { found := false, err := none } })
        passCodec sampleData freshWorld).2.2.calls =
      [Call.CreateOrUpdatePipelineConfig "main" "ci" "0" "\x7b\x7d" false,
       Call.ExposePipeline "main" "ci", Call.UnpausePipeline "main" "ci"]) :=
  ⟨(resourcePipelineUpdate_toggle_not_found
      (fixedClient { healthy with expose := { found := false, err := none } })
      passCodec sampleData freshWorld "\x7b\x7d" rfl rfl rfl).1 rfl rfl,
   (resourcePipelineUpdate_toggle_not_found
      (fixedClient { healthy with unpause := { found := false, err := none } })
      passCodec sampleData freshWorld "\x7b\x7d" rfl rfl rfl).2 rfl rfl rfl rfl⟩

/-- C5: after a write that returns no error, `is_exposed` and `is_paused` are
the `Public` and `Paused` flags that the `Pipeline` lookup of the re-read
returned, `json` is `JSONToJSON` of the config that `PipelineConfig` returned
and `yaml` is `JSONToYAML` of that `json`, as `readPipeline` computes them; the
desired flags of the input do not enter the result. -/
theorem resourcePipelineUpdate_reports_backend (client : Client σ) (cv : Codec)
    (d : ResourceData) (w : World σ)
    (hok : (resourcePipelineUpdate client cv d w).1 = none) :
    ∃ parsedJSON,
      cv.ParsePipelineConfig d.pipeline_config d.pipeline_config_format = .ok parsedJSON ∧
      (resourcePipelineUpdate client cv d w).2.1.is_exposed =
        (client.Pipeline (stateAfterToggles client d w parsedJSON)
          d.team_name d.pipeline_name).1.pipeline.Public ∧
      (resourcePipelineUpdate client cv d w).2.1.is_paused =
        (client.Pipeline (stateAfterToggles client d w parsedJSON)
          d.team_name d.pipeline_name).1.pipeline.Paused ∧
      cv.JSONToJSON
        (client.PipelineConfig
          (client.Pipeline (stateAfterToggles client d w parsedJSON)
            d.team_name d.pipeline_name).2
          d.team_name d.pipeline_name).1.rawConfig =
        .ok (resourcePipelineUpdate client cv d w).2.1.json ∧
      cv.JSONToYAML (resourcePipelineUpdate client cv d w).2.1.json =
        .ok (resourcePipelineUpdate client cv d w).2.1.yaml ∧
      (resourcePipelineUpdate client cv d w).2.1.json =
        (readPipeline client cv d.team_name d.pipeline_name
          { state := stateAfterToggles client d w parsedJSON
            calls := w.calls ++
              [Call.CreateOrUpdatePipelineConfig d.team_name d.pipeline_name "0" parsedJSON false,
               if d.is_exposed then Call.ExposePipeline d.team_name d.pipeline_name
               else Call.HidePipeline d.team_name d.pipeline_name,
               if d.is_paused then Call.PausePipeline d.team_name d.pipeline_name
               else Call.UnpausePipeline d.team_name d.pipeline_name] }).1.1.JSON ∧
      (resourcePipelineUpdate client cv d w).2.1.yaml =
        (readPipeline client cv d.team_name d.pipeline_name
          { state := stateAfterToggles client d w parsedJSON
            calls := w.calls ++
              [Call.CreateOrUpdatePipelineConfig d.team_name d.pipeline_name "0" parsedJSON false,
               if d.is_exposed then Call.ExposePipeline d.team_name d.pipeline_name
               else Call.HidePipeline d.team_name d.pipeline_name,
               if d.is_paused then Call.PausePipeline d.team_name d.pipeline_name
               else Call.UnpausePipeline d.team_name d.pipeline_name] }).1.1.YAML ∧
      (resourcePipelineUpdate client cv d w).2.1.Id = pipelineID d.team_name d.pipeline_name := by
  obtain ⟨parsedJSON, hparse, -, -, heq⟩ := resourcePipelineUpdate_ok client cv d w hok
  refine ⟨parsedJSON, hparse, ?_⟩
  rw [heq] at hok ⊢
  obtain ⟨hread, hd, -⟩ := resourcePipelineRead_ok client cv _ _ hok
  obtain ⟨j, y, hj, hy, hh, -⟩ := readPipeline_ok client cv _ _ _ hread
  simp only [ResourceData.SetId] at hread hd hj hy hh ⊢
  rw [hd]
  simp only [hh]
  exact ⟨trivial, trivial, hj, hy, trivial, trivial, trivial⟩

/-- Instance of C5: the input asks for an exposed, running pipeline, the
backend keeps reporting it hidden and paused, and the result carries the
backend's flags. -/
theorem resourcePipelineUpdate_reports_backend_witness :
    sampleData.is_exposed = true ∧ sampleData.is_paused = false ∧
    (resourcePipelineUpdate (fixedClient healthy) passCodec sampleData freshWorld).1 = none ∧
    (resourcePipelineUpdate (fixedClient healthy) passCodec sampleData freshWorld).2.1.is_exposed =
      false ∧
    (resourcePipelineUpdate (fixedClient healthy) passCodec sampleData freshWorld).2.1.is_paused =
      true ∧
    (∃ parsedJSON,
      passCodec.ParsePipelineConfig sampleData.pipeline_config
        sampleData.pipeline_config_format = .ok parsedJSON ∧
      (resourcePipelineUpdate (fixedClient healthy) passCodec sampleData freshWorld).2.1.is_exposed =
        ((fixedClient healthy).Pipeline
          (stateAfterToggles (fixedClient healthy) sampleData freshWorld parsedJSON)
          "main" "ci").1.pipeline.Public) :=
  ⟨rfl, rfl, by decide, by decide, by decide,
    (resourcePipelineUpdate_reports_backend (fixedClient healthy) passCodec sampleData
      freshWorld (by decide)).imp (fun _ h => ⟨h.1, h.2.1⟩)⟩

/-- C1, the code at the failing input: the upload answers with the error
`connection refused` (flags false, no warnings); the write returns no error
and goes on to call `ExposePipeline`, `UnpausePipeline` and the re-read. -/
theorem resourcePipelineUpdate_upload_error_ignored :
    ((fixedClient uploadErrorOnly).CreateOrUpdatePipelineConfig freshWorld.state
        "main" "ci" "0" "\x7b\x7d" false).1.err = some "connection refused" ∧
    (resourcePipelineUpdate (fixedClient uploadErrorOnly) passCodec sampleData freshWorld).1 =
      none ∧
    (resourcePipelineUpdate (fixedClient uploadErrorOnly) passCodec sampleData
        freshWorld).2.2.calls =
      [Call.CreateOrUpdatePipelineConfig "main" "ci" "0" "\x7b\x7d" false,
       Call.ExposePipeline "main" "ci", Call.UnpausePipeline "main" "ci",
       Call.Pipeline "main" "ci", Call.PipelineConfig "main" "ci"] := by
  decide

/-- C7 as stated fails: the upload answers with a warning, together with the
not-created flag and an error, and the message of the write is the one of the
failed upload, not the list of warnings. -/
theorem resourcePipelineUpdate_warnings_message_counterexample :
    ((fixedClient uploadRefused).CreateOrUpdatePipelineConfig freshWorld.state
        "main" "ci" "0" "\x7b\x7d" false).1.warnings =
      [{ Type_ := "deprecation", Message := "old field" }] ∧
    (resourcePipelineUpdate (fixedClient uploadRefused) passCodec sampleData freshWorld).1 =
      some "Encountered error setting config for pipeline ci in team 'main': connection refused" ∧
    (resourcePipelineUpdate (fixedClient uploadRefused) passCodec sampleData freshWorld).1 ≠
      some ("Encountered pipeline warnings (ci/main):\n " ++
        warningLines [{ Type_ := "deprecation", Message := "old field" }]) := by
  decide

/-- C7, amended: when the upload answers with the not-created flag false and
a non-empty list of warnings, whatever its error, the message of the write is
`Encountered pipeline warnings (<pipeline>/<team>):`, a newline, a blank, and
then the lines `<type>: <message>` of the warnings in order, each followed by
a newline. -/
theorem resourcePipelineUpdate_warnings_message (client : Client σ) (cv : Codec)
    (d : ResourceData) (w : World σ) (parsedJSON : String)
    (hparse : cv.ParsePipelineConfig d.pipeline_config d.pipeline_config_format =
      .ok parsedJSON)
    (hnc : (client.CreateOrUpdatePipelineConfig w.state d.team_name d.pipeline_name "0"
      parsedJSON false).1.not_created = false)
    (hw : (client.CreateOrUpdatePipelineConfig w.state d.team_name d.pipeline_name "0"
      parsedJSON false).1.warnings ≠ []) :
    (resourcePipelineUpdate client cv d w).1 =
      some ("Encountered pipeline warnings (" ++ d.pipeline_name ++ "/" ++ d.team_name ++
        "):\n " ++
        warningLines (client.CreateOrUpdatePipelineConfig w.state d.team_name d.pipeline_name
          "0" parsedJSON false).1.warnings) := by
  have hwt : ∀ ws : List ConfigWarning, warningText ws = warningLines ws := by
    intro ws
    rw [warningText, warningText_from]
    simp
  simp [resourcePipelineUpdate, ResourceData.SetId, hparse, Team.CreateOrUpdatePipelineConfig,
    hnc, hw, hwt]

/-- Instance of amended C7: two warnings, reported in order on two lines. -/
theorem resourcePipelineUpdate_warnings_message_witness :
    (resourcePipelineUpdate (fixedClient uploadWarned) passCodec sampleData freshWorld).1 =
      some ("Encountered pipeline warnings (ci/main):\n " ++
        "deprecation: old field\n" ++ "pipeline: unused resource\n") :=
  (resourcePipelineUpdate_warnings_message (fixedClient uploadWarned) passCodec sampleData
    freshWorld "\x7b\x7d" rfl rfl (by decide)).trans (by decide)

end Concourse
